import Mathlib

/-!
Verification of the bevy-zig-scripting bridge (src/engine/src/main.rs).

The source is a Bevy application with two systems:
* `load_script_system` (Startup): checks the configured script path, loads the
  library, resolves `zig_init` and `zig_update`, calls `zig_init`, inserts the
  `ScriptFns` and `FrameCounter(0)` resources, and calls the stored update
  pointer once with `1.0 / 60.0`.
* `script_update_system` (Update, once per host tick): when `ScriptFns` is
  present, under a mutex guard it performs a fresh library load and calls
  `zig_update_void`, calls the stored `zig_update` pointer with `1.0 / 60.0`,
  then performs two more fresh loads calling `zig_update` and
  `zig_update_void`; afterwards, when `FrameCounter` is present, it increments
  the counter and sends `AppExit` once the counter exceeds 10.

We embed both systems as pure functions producing a trace of observable
events (native calls into the module, resource insertions, the exit signal,
log lines) together with a host state, and a fuel-based `run` that executes
the startup system once and then the per-tick system repeatedly, stopping
after the tick in which the exit event was sent (Bevy's schedule runner
checks `AppExit` events after each app update).

Machine integers: `FrameCounter` wraps a `u32`; the increment is modelled as
addition modulo 2^32.  Floating point: the only float value the bridge ever
produces is the literal `1.0 / 60.0`; update arguments are modelled as
rationals.
-/

namespace BevyZig

/-- Configured filesystem path of the loadable module
(`get_script_path` in the source). -/
def get_script_path : String := "../scripts/zig-script/libscript.so"

/-- Exported entry points of the script module that the bridge names
(`zig_init`, `zig_update`, `zig_update_void` in the source). -/
inductive Sym where
  | zigInit
  | zigUpdate
  | zigUpdateVoid
deriving DecidableEq, Repr

/-- Origin of a callable handle used for a native call: `stored` means the
pointer resolved from the startup (leaked) library and kept in `ScriptFns`;
`fresh` means a pointer resolved from one of the per-tick fresh
`Library::new` loads. -/
inductive CallOrigin where
  | stored
  | fresh
deriving DecidableEq, Repr

/-- Observable events of the embedded systems.  `nativeCall sym arg origin
guarded` is a call into the loaded module: `arg` is the single rational
argument (none for void signatures) and `guarded` records whether the call
happens while the `UPDATE_LOCK` mutex is held. -/
inductive Event where
  | log (msg : String)
  | nativeCall (sym : Sym) (arg : Option ℚ) (origin : CallOrigin) (guarded : Bool)
  | insertScriptFns
  | insertFrameCounter
  | sendAppExit
deriving DecidableEq, Repr

/-- Static facts about the module file at the configured path, fixed for the
whole run: whether the path exists, whether `Library::new` succeeds on it,
and whether each required export resolves. -/
structure ModuleEnv where
  pathExists : Bool
  loadOk : Bool
  hasInit : Bool
  hasUpdate : Bool
deriving DecidableEq, Repr

/-- Outcomes of the three per-tick fresh-load diagnostic probes of
`script_update_system`: each probe is a fresh `Library::new` (which may fail)
followed by a symbol lookup (which may fail).  Probe 1 looks up
`zig_update_void`, probe 2 `zig_update`, probe 3 `zig_update_void`. -/
structure ProbeOutcome where
  load1Ok : Bool
  sym1Ok : Bool
  load2Ok : Bool
  sym2Ok : Bool
  load3Ok : Bool
  sym3Ok : Bool
deriving DecidableEq, Repr

/-- Host state visible to the embedded systems: whether the `ScriptFns`
resource is present, the `FrameCounter` resource (a `u32` counter) when
present, and whether the `AppExit` event has been sent. -/
structure HostState where
  scriptFns : Bool
  frameCounter : Option Nat
  exited : Bool
deriving DecidableEq, Repr

/-- The literal `1.0 / 60.0` that the source passes to every `zig_update`
call. -/
def dtLiteral : ℚ := 1 / 60

/-- Embedding of `load_script_system` (main.rs lines 47-115).  Returns the
event trace of one execution and the resulting host state (which resources
were inserted; the exit event is never sent here).  Control flow mirrors the
source: missing path, failed load, missing `zig_init`, and missing
`zig_update` each return early having made no native call and inserted no
resource; on the full success path `zig_init` is called (no argument, not
under any lock), both resources are inserted, and the stored update pointer
is called once with `1.0 / 60.0` (not under any lock). -/
def load_script_system (env : ModuleEnv) : List Event × HostState :=
  if !env.pathExists then
    ([Event.log "Script library not found. Build the script first"],
     ⟨false, none, false⟩)
  else if !env.loadOk then
    ([Event.log "startup system entered",
      Event.log "attempting to load library",
      Event.log "Failed to load library"],
     ⟨false, none, false⟩)
  else if !env.hasInit then
    ([Event.log "startup system entered",
      Event.log "attempting to load library",
      Event.log "Loaded library",
      Event.log "Failed to find symbol zig_init"],
     ⟨false, none, false⟩)
  else if !env.hasUpdate then
    ([Event.log "startup system entered",
      Event.log "attempting to load library",
      Event.log "Loaded library",
      Event.log "Failed to find symbol zig_update"],
     ⟨false, none, false⟩)
  else
    ([Event.log "startup system entered",
      Event.log "attempting to load library",
      Event.log "Loaded library",
      Event.log "calling zig_init",
      Event.nativeCall Sym.zigInit none CallOrigin.stored false,
      Event.log "zig_init returned",
      Event.insertScriptFns,
      Event.insertFrameCounter,
      Event.log "calling zig_update from startup system",
      Event.nativeCall Sym.zigUpdate (some dtLiteral) CallOrigin.stored false,
      Event.log "returned from zig_update in startup"],
     ⟨true, some 0, false⟩)

/-- Events of the `if let Some(fns_res) = script_fns` block of
`script_update_system` (main.rs lines 119-181): everything below the first
log line happens while the `UPDATE_LOCK` mutex guard is held.  Probe 1
(fresh load, `zig_update_void`) runs before the stored-pointer call; the
stored `zig_update` pointer is called unconditionally with `1.0 / 60.0`;
probes 2 (fresh `zig_update`) and 3 (fresh `zig_update_void`) follow.  Every
probe failure branch produces only a log line. -/
def scriptCallEvents (p : ProbeOutcome) : List Event :=
  [Event.log "About to call the Zig update fn pointer",
   Event.log "update fn pointer value"] ++
  (if p.load1Ok then
    (if p.sym1Ok then
      [Event.log "About to call the Zig update void fresh load",
       Event.nativeCall Sym.zigUpdateVoid none CallOrigin.fresh true,
       Event.log "Called the Zig update void fresh load"]
     else
      [Event.log "Failed to locate zig_update_void in fresh load"])
   else
    [Event.log "Failed to fresh load the library for void test"]) ++
  [Event.nativeCall Sym.zigUpdate (some dtLiteral) CallOrigin.stored true,
   Event.log "Called the Zig update fn pointer"] ++
  (if p.load2Ok then
    (if p.sym2Ok then
      [Event.log "About to call the Zig update fresh load",
       Event.nativeCall Sym.zigUpdate (some dtLiteral) CallOrigin.fresh true,
       Event.log "Called the Zig update fresh load"]
     else
      [Event.log "Failed to get zig_update symbol from fresh load"])
   else
    [Event.log "Fresh library load failed"]) ++
  (if p.load3Ok then
    (if p.sym3Ok then
      [Event.log "About to call the Zig update void fresh load again",
       Event.nativeCall Sym.zigUpdateVoid none CallOrigin.fresh true,
       Event.log "Called the Zig update void fresh load again"]
     else
      [Event.log "Failed to find zig_update_void"])
   else
    [Event.log "Fresh lib load 2 failed"])

/-- Embedding of `script_update_system` (main.rs lines 118-190), one
execution per host tick.  `dt` is the elapsed time of the tick as the host
measures it; the source ignores it (it never reads Bevy's `Time`) and passes
the literal `1.0 / 60.0` instead.  The native-call block runs only when the
`ScriptFns` resource is present; afterwards, when the `FrameCounter`
resource is present, the counter is incremented (u32 wrap-around) and the
`AppExit` event is sent once the counter exceeds 10. -/
def script_update_system (s : HostState) (p : ProbeOutcome) (dt : ℚ) :
    List Event × HostState :=
  let callEvents := if s.scriptFns then scriptCallEvents p else []
  match s.frameCounter with
  | none => (callEvents, s)
  | some c =>
    let c' := (c + 1) % 4294967296
    if c' > 10 then
      (callEvents ++ [Event.log "Reached frame limit, quitting", Event.sendAppExit],
       ⟨s.scriptFns, some c', true⟩)
    else
      (callEvents, ⟨s.scriptFns, some c', s.exited⟩)

/-- Run up to `n` host ticks from state `s`, tick `i` being the next one.
`probes i` and `dts i` are the probe outcomes and the host-measured elapsed
time of tick `i`.  The schedule runner checks `AppExit` events after each
app update, so a tick that sent the exit event is the last one executed. -/
def runTicksFrom (probes : Nat → ProbeOutcome) (dts : Nat → ℚ) :
    Nat → HostState → Nat → List Event × HostState
  | _, s, 0 => ([], s)
  | i, s, Nat.succ n =>
    if s.exited then ([], s)
    else
      let out := script_update_system s (probes i) (dts i)
      let rest := runTicksFrom probes dts (i + 1) out.2 n
      (out.1 ++ rest.1, rest.2)

/-- Whole run of the host: the startup system once, then up to `n` ticks of
the per-tick system. -/
def run (env : ModuleEnv) (probes : Nat → ProbeOutcome) (dts : Nat → ℚ)
    (n : Nat) : List Event × HostState :=
  let start := load_script_system env
  let ticks := runTicksFrom probes dts 0 start.2 n
  (start.1 ++ ticks.1, ticks.2)

/-- A fully valid module: path exists, load succeeds, both required exports
resolve. -/
def validEnv : ModuleEnv := ⟨true, true, true, true⟩

/-- Probe outcome in which every per-tick fresh load and symbol lookup
succeeds (the case of a fully valid module that also exports
`zig_update_void`). -/
def allOk : ProbeOutcome := ⟨true, true, true, true, true, true⟩

/-- Probe outcome in which every per-tick fresh load fails. -/
def allFail : ProbeOutcome := ⟨false, false, false, false, false, false⟩

/-- Predicate: the event is a native call into the module. -/
def Event.isNative : Event → Bool
  | .nativeCall _ _ _ _ => true
  | _ => false

/-- Predicate: the event is the `zig_init` call. -/
def Event.isInit : Event → Bool
  | .nativeCall .zigInit _ _ _ => true
  | _ => false

/-- Predicate: the event is a `zig_update` call (any origin). -/
def Event.isUpdateCall : Event → Bool
  | .nativeCall .zigUpdate _ _ _ => true
  | _ => false

/-- Predicate: the event is a `zig_update` call through the stored
`ScriptFns` pointer. -/
def Event.isStoredUpdate : Event → Bool
  | .nativeCall .zigUpdate _ .stored _ => true
  | _ => false

/-- Predicate: the event is the `AppExit` signal. -/
def Event.isExit : Event → Bool
  | .sendAppExit => true
  | _ => false

/-- Guard flag of an event: true exactly for native calls made while the
`UPDATE_LOCK` mutex is held. -/
def Event.isGuardedCall : Event → Bool
  | .nativeCall _ _ _ g => g
  | _ => false

end BevyZig

namespace BevyZig

/-! ## Helper lemmas about the per-tick call block -/

/-- The native calls of one per-tick call block: the stored-pointer
`zig_update` call is always present exactly once; each successful probe adds
its fresh-load call; each failed probe adds nothing (only log lines). -/
lemma scriptCallEvents_filter_native (p : ProbeOutcome) :
    (scriptCallEvents p).filter Event.isNative =
      (if p.load1Ok && p.sym1Ok then
        [Event.nativeCall Sym.zigUpdateVoid none CallOrigin.fresh true] else []) ++
      [Event.nativeCall Sym.zigUpdate (some dtLiteral) CallOrigin.stored true] ++
      (if p.load2Ok && p.sym2Ok then
        [Event.nativeCall Sym.zigUpdate (some dtLiteral) CallOrigin.fresh true] else []) ++
      (if p.load3Ok && p.sym3Ok then
        [Event.nativeCall Sym.zigUpdateVoid none CallOrigin.fresh true] else []) := by
  rcases p with ⟨l1, s1, l2, s2, l3, s3⟩
  cases l1 <;> cases s1 <;> cases l2 <;> cases s2 <;> cases l3 <;> cases s3 <;> rfl

/-- Each per-tick call block contains exactly one stored-pointer update
call, whatever the probe outcomes. -/
lemma scriptCallEvents_count_stored (p : ProbeOutcome) :
    (scriptCallEvents p).countP Event.isStoredUpdate = 1 := by
  rcases p with ⟨l1, s1, l2, s2, l3, s3⟩
  cases l1 <;> cases s1 <;> cases l2 <;> cases s2 <;> cases l3 <;> cases s3 <;> rfl

/-- The per-tick call block never calls `zig_init`. -/
lemma scriptCallEvents_no_init (p : ProbeOutcome) :
    ∀ e ∈ scriptCallEvents p, e.isInit = false := by
  rcases p with ⟨l1, s1, l2, s2, l3, s3⟩
  cases l1 <;> cases s1 <;> cases l2 <;> cases s2 <;> cases l3 <;> cases s3 <;> decide

/-- Number of `zig_update` calls in one per-tick call block: the stored call
plus the fresh-load probe call when probe 2 succeeds. -/
lemma scriptCallEvents_count_update (p : ProbeOutcome) :
    (scriptCallEvents p).countP Event.isUpdateCall =
      1 + (if p.load2Ok && p.sym2Ok then 1 else 0) := by
  rcases p with ⟨l1, s1, l2, s2, l3, s3⟩
  cases l1 <;> cases s1 <;> cases l2 <;> cases s2 <;> cases l3 <;> cases s3 <;> rfl

/-- Every native call of the per-tick call block happens while the mutex
guard is held. -/
lemma scriptCallEvents_guarded (p : ProbeOutcome) :
    (scriptCallEvents p).countP (fun e => e.isNative && !e.isGuardedCall) = 0 := by
  rcases p with ⟨l1, s1, l2, s2, l3, s3⟩
  cases l1 <;> cases s1 <;> cases l2 <;> cases s2 <;> cases l3 <;> cases s3 <;> rfl

/-- The per-tick call block never sends the exit event. -/
lemma scriptCallEvents_count_exit (p : ProbeOutcome) :
    (scriptCallEvents p).countP Event.isExit = 0 := by
  rcases p with ⟨l1, s1, l2, s2, l3, s3⟩
  cases l1 <;> cases s1 <;> cases l2 <;> cases s2 <;> cases l3 <;> cases s3 <;> rfl

/-! ## Shape lemmas for one execution of the per-tick system -/

/-- Tick from a running state whose counter stays at or below the cap:
the call block runs, the counter increments, no exit. -/
lemma tick_running_lt (p : ProbeOutcome) (dt : ℚ) (c : Nat) (hc : c < 10) :
    script_update_system ⟨true, some c, false⟩ p dt =
      (scriptCallEvents p, ⟨true, some (c + 1), false⟩) := by
  have hmod : (c + 1) % 4294967296 = c + 1 := Nat.mod_eq_of_lt (by omega)
  simp [script_update_system, hmod]
  omega

/-- Tick from a running state whose counter is at the cap: the call block
runs, then the frame-limit log and the exit event are emitted. -/
lemma tick_running_cap (p : ProbeOutcome) (dt : ℚ) :
    script_update_system ⟨true, some 10, false⟩ p dt =
      (scriptCallEvents p ++
        [Event.log "Reached frame limit, quitting", Event.sendAppExit],
       ⟨true, some 11, true⟩) := by
  simp [script_update_system]

/-- Tick from the inactive state (no resources): nothing happens. -/
lemma tick_inactive (p : ProbeOutcome) (dt : ℚ) :
    script_update_system ⟨false, none, false⟩ p dt = ([], ⟨false, none, false⟩) := rfl

/-- Count of events of one tick, for any predicate that ignores the
frame-limit log line and the exit event: only the call block contributes,
and only when `ScriptFns` is present. -/
lemma tick_countP (q : Event → Bool)
    (hlog : q (Event.log "Reached frame limit, quitting") = false)
    (hexit : q Event.sendAppExit = false)
    (s : HostState) (p : ProbeOutcome) (dt : ℚ) :
    (script_update_system s p dt).1.countP q =
      if s.scriptFns then (scriptCallEvents p).countP q else 0 := by
  rcases s with ⟨sf, fc, ex⟩
  cases fc with
  | none => cases sf <;> rfl
  | some c =>
    by_cases h : (c + 1) % 4294967296 > 10
    · cases sf <;>
        simp [script_update_system, h, List.countP_append, List.countP_cons,
          hlog, hexit]
    · cases sf <;> simp [script_update_system, h]

/-! ## Shape lemmas for the tick loop -/

/-- Once the exit event has been seen, the schedule runner executes no
further tick. -/
lemma runTicksFrom_exited (probes : Nat → ProbeOutcome) (dts : Nat → ℚ)
    (i : Nat) (s : HostState) (n : Nat) (h : s.exited = true) :
    runTicksFrom probes dts i s n = ([], s) := by
  cases n with
  | zero => rfl
  | succ n => simp [runTicksFrom, h]

/-- From the inactive state the tick loop produces no event and never
changes state. -/
lemma runTicksFrom_inactive (probes : Nat → ProbeOutcome) (dts : Nat → ℚ)
    (n : Nat) : ∀ i, runTicksFrom probes dts i ⟨false, none, false⟩ n =
      ([], ⟨false, none, false⟩) := by
  induction n with
  | zero => intro i; rfl
  | succ n ih =>
    intro i
    simp [runTicksFrom, tick_inactive, ih (i + 1)]

/-- The per-tick call block never calls `zig_init` (count form). -/
lemma scriptCallEvents_count_init (p : ProbeOutcome) :
    (scriptCallEvents p).countP Event.isInit = 0 := by
  rcases p with ⟨l1, s1, l2, s2, l3, s3⟩
  cases l1 <;> cases s1 <;> cases l2 <;> cases s2 <;> cases l3 <;> cases s3 <;> rfl

/-- One tick never calls `zig_init`, from any state. -/
lemma tick_count_init (s : HostState) (p : ProbeOutcome) (dt : ℚ) :
    (script_update_system s p dt).1.countP Event.isInit = 0 := by
  rw [tick_countP Event.isInit rfl rfl]
  split <;> simp [scriptCallEvents_count_init]

/-- The tick loop never calls `zig_init`, from any state. -/
lemma runTicksFrom_count_init (probes : Nat → ProbeOutcome) (dts : Nat → ℚ)
    (n : Nat) : ∀ i s, (runTicksFrom probes dts i s n).1.countP Event.isInit = 0 := by
  induction n with
  | zero => intro i s; rfl
  | succ n ih =>
    intro i s
    by_cases hex : s.exited = true
    · rw [runTicksFrom_exited probes dts i s (n + 1) hex]; rfl
    · simp only [Bool.not_eq_true] at hex
      simp [runTicksFrom, hex, List.countP_append, tick_count_init, ih]

end BevyZig

namespace BevyZig

/-- Behaviour of the tick loop started in the running state with counter
`c ≤ 10` and enough fuel: it ends exited with the counter at 11, calls the
stored update pointer once per tick for `11 - c` further ticks, and sends
the exit event exactly once (at the end of the tick that takes the counter
past 10). -/
lemma runTicksFrom_running (probes : Nat → ProbeOutcome) (dts : Nat → ℚ) :
    ∀ (n c i : Nat), c ≤ 10 → 11 - c ≤ n →
      (runTicksFrom probes dts i ⟨true, some c, false⟩ n).2 = ⟨true, some 11, true⟩
      ∧ (runTicksFrom probes dts i ⟨true, some c, false⟩ n).1.countP
          Event.isStoredUpdate = 11 - c
      ∧ (runTicksFrom probes dts i ⟨true, some c, false⟩ n).1.countP
          Event.isExit = 1 := by
  intro n
  induction n with
  | zero => intro c i hc hn; omega
  | succ n ih =>
    intro c i hc hn
    by_cases hcap : c = 10
    · subst hcap
      have h1 := tick_running_cap (probes i) (dts i)
      simp only [runTicksFrom, h1]
      rw [runTicksFrom_exited probes dts (i + 1) ⟨true, some 11, true⟩ n rfl]
      refine ⟨rfl, ?_, ?_⟩ <;>
        simp [List.countP_append, List.countP_cons,
          scriptCallEvents_count_stored, scriptCallEvents_count_exit,
          Event.isStoredUpdate, Event.isExit]
    · have hlt : c < 10 := by omega
      have h1 := tick_running_lt (probes i) (dts i) c hlt
      have hrw1 : (runTicksFrom probes dts i ⟨true, some c, false⟩ (n + 1)).1
          = scriptCallEvents (probes i)
            ++ (runTicksFrom probes dts (i + 1) ⟨true, some (c + 1), false⟩ n).1 := by
        simp [runTicksFrom, h1]
      have hrw2 : (runTicksFrom probes dts i ⟨true, some c, false⟩ (n + 1)).2
          = (runTicksFrom probes dts (i + 1) ⟨true, some (c + 1), false⟩ n).2 := by
        simp [runTicksFrom, h1]
      obtain ⟨hs, hst, hex⟩ := ih (c + 1) (i + 1) (by omega) (by omega)
      refine ⟨?_, ?_, ?_⟩
      · rw [hrw2, hs]
      · rw [hrw1]
        simp only [List.countP_append, scriptCallEvents_count_stored, hst]
        omega
      · rw [hrw1]
        simp only [List.countP_append, scriptCallEvents_count_exit, hex]

end BevyZig

namespace BevyZig

/-- An init event is a native call. -/
lemma Event.isInit_isNative (e : Event) (h : e.isInit = true) : e.isNative = true := by
  cases e <;> simp_all [Event.isInit, Event.isNative]

/-- Startup with any failed activation step (missing path, failed load, or a
missing required symbol) leaves the host inactive: no resource inserted. -/
lemma load_invalid_state (env : ModuleEnv)
    (h : (env.pathExists && env.loadOk && env.hasInit && env.hasUpdate) = false) :
    (load_script_system env).2 = ⟨false, none, false⟩ := by
  rcases env with ⟨pe, lo, hi, hu⟩
  revert h
  cases pe <;> cases lo <;> cases hi <;> cases hu <;> decide

/-- Startup with any failed activation step makes no native call. -/
lemma load_invalid_no_native (env : ModuleEnv)
    (h : (env.pathExists && env.loadOk && env.hasInit && env.hasUpdate) = false) :
    (load_script_system env).1.countP Event.isNative = 0 := by
  rcases env with ⟨pe, lo, hi, hu⟩
  revert h
  cases pe <;> cases lo <;> cases hi <;> cases hu <;> decide

/-- A whole run with any failed activation step: no native call ever, no
exit event ever, and the final state is still inactive. -/
lemma run_invalid (env : ModuleEnv) (probes : Nat → ProbeOutcome)
    (dts : Nat → ℚ) (n : Nat)
    (h : (env.pathExists && env.loadOk && env.hasInit && env.hasUpdate) = false) :
    (run env probes dts n).1.countP Event.isNative = 0
    ∧ (run env probes dts n).1.countP Event.isExit = 0
    ∧ (run env probes dts n).2 = ⟨false, none, false⟩ := by
  have h1 : (run env probes dts n).1
      = (load_script_system env).1
        ++ (runTicksFrom probes dts 0 (load_script_system env).2 n).1 := rfl
  have h2 : (run env probes dts n).2
      = (runTicksFrom probes dts 0 (load_script_system env).2 n).2 := rfl
  have hs := load_invalid_state env h
  have hticks := runTicksFrom_inactive probes dts n 0
  refine ⟨?_, ?_, ?_⟩
  · rw [h1, hs, List.countP_append, hticks, load_invalid_no_native env h]
    rfl
  · rw [h1, hs, List.countP_append, hticks]
    have : (load_script_system env).1.countP Event.isExit = 0 := by
      rcases env with ⟨pe, lo, hi, hu⟩
      cases pe <;> cases lo <;> cases hi <;> cases hu <;> decide
    rw [this]
    rfl
  · rw [h2, hs, hticks]

/-- Filtered events of one tick, for any predicate that rejects the
frame-limit log line and the exit event: only the call block contributes,
and only when `ScriptFns` is present. -/
lemma tick_filter (q : Event → Bool)
    (hlog : q (Event.log "Reached frame limit, quitting") = false)
    (hexit : q Event.sendAppExit = false)
    (s : HostState) (p : ProbeOutcome) (dt : ℚ) :
    (script_update_system s p dt).1.filter q =
      if s.scriptFns then (scriptCallEvents p).filter q else [] := by
  rcases s with ⟨sf, fc, ex⟩
  cases fc with
  | none => cases sf <;> rfl
  | some c =>
    by_cases h : (c + 1) % 4294967296 > 10
    · cases sf <;>
        simp [script_update_system, h, List.filter_append, List.filter_cons,
          hlog, hexit]
    · cases sf <;> simp [script_update_system, h]

/-- The only stored-pointer update call of a per-tick call block carries the
literal `1.0 / 60.0`, whatever the probe outcomes. -/
lemma scriptCallEvents_filter_stored (p : ProbeOutcome) :
    (scriptCallEvents p).filter Event.isStoredUpdate =
      [Event.nativeCall Sym.zigUpdate (some dtLiteral) CallOrigin.stored true] := by
  rcases p with ⟨l1, s1, l2, s2, l3, s3⟩
  cases l1 <;> cases s1 <;> cases l2 <;> cases s2 <;> cases l3 <;> cases s3 <;> rfl

end BevyZig

namespace BevyZig

/-! ## Claim theorems -/

/-- C1 counterexample.  The claim says the scheduler signals host shutdown
after exactly ten successful update calls following the successful
initializer and issues no eleventh update call.  On the fully valid run the
stored update pointer is in fact called 12 times after the initializer (once
from the startup system and once on each of the 11 ticks executed before
the exit event takes effect), so an eleventh update call does occur and the
claimed count of ten is wrong. -/
theorem c1_counterexample :
    ((run validEnv (fun _ => allOk) (fun _ => dtLiteral) 20).1.countP
        Event.isStoredUpdate = 12)
    ∧ ¬ ((run validEnv (fun _ => allOk) (fun _ => dtLiteral) 20).1.countP
        Event.isStoredUpdate = 10)
    ∧ ((run validEnv (fun _ => allOk) (fun _ => dtLiteral) 20).1.countP
        Event.isExit = 1) := by
  refine ⟨by decide, by decide, by decide⟩

/-- C1 (amended).  For a fully valid module the scheduler signals host
shutdown at the end of the eleventh per-tick update run (the first run in
which the frame counter, incremented after the update call, exceeds ten):
the stored update entry point is called twelve times after the successful
initializer — once from the startup system and once on each of the eleven
ticks — the exit event is sent exactly once, and no twelfth tick occurs
(the run ends exited with the counter at 11), whatever the per-tick probe
outcomes and host time deltas. -/
theorem c1_exit_after_eleven_ticks (probes : Nat → ProbeOutcome)
    (dts : Nat → ℚ) (n : Nat) (hn : 11 ≤ n) :
    ((run validEnv probes dts n).1.countP Event.isStoredUpdate = 12)
    ∧ ((run validEnv probes dts n).1.countP Event.isExit = 1)
    ∧ ((run validEnv probes dts n).2 = ⟨true, some 11, true⟩) := by
  have h1 : (run validEnv probes dts n).1
      = (load_script_system validEnv).1
        ++ (runTicksFrom probes dts 0 ⟨true, some 0, false⟩ n).1 := rfl
  have h2 : (run validEnv probes dts n).2
      = (runTicksFrom probes dts 0 ⟨true, some 0, false⟩ n).2 := rfl
  obtain ⟨hs, hst, hex⟩ :=
    runTicksFrom_running probes dts n 0 0 (by omega) (by omega)
  refine ⟨?_, ?_, ?_⟩
  · rw [h1, List.countP_append, hst,
      show (load_script_system validEnv).1.countP Event.isStoredUpdate = 1
        from by decide]
  · rw [h1, List.countP_append, hex,
      show (load_script_system validEnv).1.countP Event.isExit = 0
        from by decide]
  · rw [h2, hs]

/-- C1 witness: the amended behaviour at the concrete run of 11 requested
ticks with all probes succeeding and a constant time delta. -/
theorem c1_exit_after_eleven_ticks_witness :
    ((run validEnv (fun _ => allOk) (fun _ => dtLiteral) 11).1.countP
        Event.isStoredUpdate = 12)
    ∧ ((run validEnv (fun _ => allOk) (fun _ => dtLiteral) 11).1.countP
        Event.isExit = 1)
    ∧ ((run validEnv (fun _ => allOk) (fun _ => dtLiteral) 11).2
        = ⟨true, some 11, true⟩) :=
  c1_exit_after_eleven_ticks (fun _ => allOk) (fun _ => dtLiteral) 11
    (by decide)

/-- C2 counterexample.  The claim says exactly one call to the module's
update entry point occurs per tick while Running.  On the first tick after
successful activation of a fully valid module (state
`(load_script_system validEnv).2`), `zig_update` is called twice: once
through the stored pointer and once more through the per-tick fresh-load
diagnostic probe. -/
theorem c2_counterexample :
    ((script_update_system (load_script_system validEnv).2 allOk
        dtLiteral).1.countP Event.isUpdateCall = 2)
    ∧ ¬ ((script_update_system (load_script_system validEnv).2 allOk
        dtLiteral).1.countP Event.isUpdateCall = 1) := by
  refine ⟨by decide, by decide⟩

/-- C2 (amended).  On every tick while Running, exactly one call through
the stored update pointer occurs; the total number of `zig_update` calls on
a tick is that one stored call plus one more fresh-load diagnostic call
exactly when the second per-tick fresh load and its symbol lookup succeed.
Calls are strictly sequential and ordered by tick number: the fully valid
run's trace is the startup trace followed by the eleven per-tick traces
concatenated in tick order. -/
theorem c2_update_calls_per_tick :
    (∀ (c : Nat) (ex : Bool) (p : ProbeOutcome) (dt : ℚ),
      ((script_update_system ⟨true, some c, ex⟩ p dt).1.countP
          Event.isStoredUpdate = 1)
      ∧ ((script_update_system ⟨true, some c, ex⟩ p dt).1.countP
          Event.isUpdateCall = 1 + (if p.load2Ok && p.sym2Ok then 1 else 0)))
    ∧ ((run validEnv (fun _ => allOk) (fun _ => dtLiteral) 20).1
        = (load_script_system validEnv).1
          ++ (List.range 11).flatMap
              (fun i =>
                (script_update_system ⟨true, some i, false⟩ allOk
                  dtLiteral).1)) := by
  refine ⟨?_, by rfl⟩
  intro c ex p dt
  refine ⟨?_, ?_⟩
  · rw [tick_countP Event.isStoredUpdate rfl rfl]
    simp [scriptCallEvents_count_stored]
  · rw [tick_countP Event.isUpdateCall rfl rfl]
    simp [scriptCallEvents_count_update]

/-- C3.  The claim (and the source's own doc comment on
`script_update_system`, which says the system calls the update function
using the host's measured time delta) requires the update entry point to
receive the tick's elapsed time.  The embedded system shows the code
instead passes the literal `1.0 / 60.0` on every tick, regardless of the
host-measured delta `dt` of that tick: the stored update call's argument is
`dtLiteral = 1/60` for every `dt`, and in particular differs from the
elapsed time on any tick where the measured delta is `1/30`. -/
theorem c3_update_arg_is_constant (dt : ℚ) (c : Nat) (p : ProbeOutcome) :
    ((script_update_system ⟨true, some c, false⟩ p dt).1.filter
        Event.isStoredUpdate
      = [Event.nativeCall Sym.zigUpdate (some dtLiteral) CallOrigin.stored true])
    ∧ dtLiteral = 1 / 60
    ∧ dtLiteral ≠ 1 / 30 := by
  refine ⟨?_, rfl, by norm_num [dtLiteral]⟩
  rw [tick_filter Event.isStoredUpdate rfl rfl]
  simp [scriptCallEvents_filter_stored]

end BevyZig

namespace BevyZig

/-- C4.  For a fully valid module the initializer is called exactly once
over the whole run, with no arguments, and strictly before the first update
call (indeed before every other native call): the run trace contains
exactly one `zig_init` call, and the first native call of the trace is the
no-argument `zig_init` call — whatever the probe outcomes, the host time
deltas, and the number of requested ticks. -/
theorem c4_init_once_before_first_update (probes : Nat → ProbeOutcome)
    (dts : Nat → ℚ) (n : Nat) :
    ((run validEnv probes dts n).1.countP Event.isInit = 1)
    ∧ (((run validEnv probes dts n).1.filter Event.isNative).head?
        = some (Event.nativeCall Sym.zigInit none CallOrigin.stored false)) := by
  have h1 : (run validEnv probes dts n).1
      = (load_script_system validEnv).1
        ++ (runTicksFrom probes dts 0 ⟨true, some 0, false⟩ n).1 := rfl
  refine ⟨?_, ?_⟩
  · rw [h1, List.countP_append,
      runTicksFrom_count_init probes dts n 0 ⟨true, some 0, false⟩,
      show (load_script_system validEnv).1.countP Event.isInit = 1 from by decide]
  · rw [h1, List.filter_append,
      show (load_script_system validEnv).1.filter Event.isNative
        = [Event.nativeCall Sym.zigInit none CallOrigin.stored false,
           Event.nativeCall Sym.zigUpdate (some dtLiteral) CallOrigin.stored false]
        from by rfl]
    rfl

/-- C5.  Invariant: in every run, over every module environment, if any
native call occurs at all then the first one is the no-argument `zig_init`
call and no further `zig_init` call occurs — so every other
resolved-entry-point call happens strictly after the initializer has
completed.  (All loads, the startup load and the per-tick fresh loads
alike, reference the single module at the configured path.) -/
theorem c5_no_call_before_init (env : ModuleEnv)
    (probes : Nat → ProbeOutcome) (dts : Nat → ℚ) (n : Nat) :
    ((run env probes dts n).1.filter Event.isNative = [])
    ∨ (∃ l, (run env probes dts n).1.filter Event.isNative
          = Event.nativeCall Sym.zigInit none CallOrigin.stored false :: l
        ∧ l.countP Event.isInit = 0) := by
  by_cases hv : (env.pathExists && env.loadOk && env.hasInit && env.hasUpdate) = true
  · right
    rcases env with ⟨pe, lo, hi, hu⟩
    simp only [Bool.and_eq_true] at hv
    obtain ⟨⟨⟨hpe, hlo⟩, hhi⟩, hhu⟩ := hv
    subst hpe; subst hlo; subst hhi; subst hhu
    refine ⟨Event.nativeCall Sym.zigUpdate (some dtLiteral) CallOrigin.stored false
        :: ((runTicksFrom probes dts 0 ⟨true, some 0, false⟩ n).1.filter
            Event.isNative), ?_, ?_⟩
    · have h1 : (run ⟨true, true, true, true⟩ probes dts n).1
          = (load_script_system ⟨true, true, true, true⟩).1
            ++ (runTicksFrom probes dts 0 ⟨true, some 0, false⟩ n).1 := rfl
      rw [h1, List.filter_append]
      rfl
    · have h0 := runTicksFrom_count_init probes dts n 0 ⟨true, some 0, false⟩
      have hz : ((runTicksFrom probes dts 0 ⟨true, some 0, false⟩ n).1.filter
          Event.isNative).countP Event.isInit = 0 := by
        refine List.countP_eq_zero.mpr ?_
        intro e he hinit
        exact (List.countP_eq_zero.mp h0) e (List.mem_of_mem_filter he) hinit
      simp [List.countP_cons, hz, Event.isInit]
  · left
    have h := run_invalid env probes dts n (by simpa using hv)
    refine List.filter_eq_nil_iff.mpr ?_
    intro e he
    exact List.countP_eq_zero.mp h.1 e he

/-- C6 counterexample.  The claim says every call into the module, in both
the startup and per-tick systems, occurs while holding the
mutual-exclusion guard.  The fully valid run contains exactly two unguarded
native calls: the startup system's `zig_init` call and its startup
`zig_update` call, both made outside any lock (the `UPDATE_LOCK` mutex
exists only inside the per-tick system). -/
theorem c6_counterexample :
    ((run validEnv (fun _ => allOk) (fun _ => dtLiteral) 20).1.countP
        (fun e => e.isNative && !e.isGuardedCall) = 2)
    ∧ ¬ ((run validEnv (fun _ => allOk) (fun _ => dtLiteral) 20).1.countP
        (fun e => e.isNative && !e.isGuardedCall) = 0) := by
  refine ⟨by decide, by decide⟩

/-- C6 (amended).  The mutual-exclusion guard wraps every native call made
by the per-tick system, from any state and for any probe outcome; the
startup system's two calls into the module (`zig_init` and the startup
`zig_update` call) are made without holding the guard. -/
theorem c6_guard_wraps_per_tick_calls (s : HostState) (p : ProbeOutcome)
    (dt : ℚ) :
    ((script_update_system s p dt).1.countP
        (fun e => e.isNative && !e.isGuardedCall) = 0)
    ∧ ((load_script_system validEnv).1.filter Event.isNative
        = [Event.nativeCall Sym.zigInit none CallOrigin.stored false,
           Event.nativeCall Sym.zigUpdate (some dtLiteral) CallOrigin.stored false]) := by
  refine ⟨?_, by rfl⟩
  rw [tick_countP _ rfl rfl]
  split
  · exact scriptCallEvents_guarded p
  · rfl

/-- C7.  If the configured script path does not exist at startup, whatever
the other properties of the file would have been, activation ends inactive
(no resource inserted), no call into any native code ever occurs during the
run, and the host keeps running without scripting (the exit event is never
sent). -/
theorem c7_missing_path_no_native_calls (lo hi hu : Bool)
    (probes : Nat → ProbeOutcome) (dts : Nat → ℚ) (n : Nat) :
    ((run ⟨false, lo, hi, hu⟩ probes dts n).1.countP Event.isNative = 0)
    ∧ ((run ⟨false, lo, hi, hu⟩ probes dts n).2 = ⟨false, none, false⟩)
    ∧ ((run ⟨false, lo, hi, hu⟩ probes dts n).1.countP Event.isExit = 0) := by
  obtain ⟨h1, h2, h3⟩ := run_invalid ⟨false, lo, hi, hu⟩ probes dts n (by simp)
  exact ⟨h1, h3, h2⟩

/-- C8.  If the module loads but the `zig_update` export is missing,
`zig_init` is never called (whether or not it resolves: both required
exports must resolve before any native call), activation aborts leaving
the bridge inactive, and the host keeps running without scripting: the run
makes no native call at all and never exits. -/
theorem c8_missing_update_init_never_called (hi : Bool)
    (probes : Nat → ProbeOutcome) (dts : Nat → ℚ) (n : Nat) :
    ((run ⟨true, true, hi, false⟩ probes dts n).1.countP Event.isInit = 0)
    ∧ ((run ⟨true, true, hi, false⟩ probes dts n).1.countP Event.isNative = 0)
    ∧ ((run ⟨true, true, hi, false⟩ probes dts n).2 = ⟨false, none, false⟩) := by
  obtain ⟨h1, h2, h3⟩ := run_invalid ⟨true, true, hi, false⟩ probes dts n (by simp)
  refine ⟨?_, h1, h3⟩
  refine List.countP_eq_zero.mpr ?_
  intro e he hinit
  exact List.countP_eq_zero.mp h1 e he (Event.isInit_isNative e hinit)

/-- C9.  Activation is all-or-nothing: the `ScriptFns` and `FrameCounter`
resources are inserted together exactly when the path exists, the load
succeeds and both required symbols resolve; on any failure neither resource
is inserted, and the whole run then makes no native call and never sends
the exit signal. -/
theorem c9_activation_all_or_nothing (env : ModuleEnv)
    (probes : Nat → ProbeOutcome) (dts : Nat → ℚ) (n : Nat) :
    ((load_script_system env).2.scriptFns
        = (env.pathExists && env.loadOk && env.hasInit && env.hasUpdate))
    ∧ ((load_script_system env).2.frameCounter
        = if env.pathExists && env.loadOk && env.hasInit && env.hasUpdate
          then some 0 else none)
    ∧ ((env.pathExists && env.loadOk && env.hasInit && env.hasUpdate) = false →
        ((run env probes dts n).1.countP Event.isNative = 0)
        ∧ ((run env probes dts n).1.countP Event.isExit = 0)
        ∧ ((run env probes dts n).2.exited = false)) := by
  refine ⟨?_, ?_, ?_⟩
  · rcases env with ⟨pe, lo, hi, hu⟩
    cases pe <;> cases lo <;> cases hi <;> cases hu <;> rfl
  · rcases env with ⟨pe, lo, hi, hu⟩
    cases pe <;> cases lo <;> cases hi <;> cases hu <;> rfl
  · intro h
    obtain ⟨h1, h2, h3⟩ := run_invalid env probes dts n h
    exact ⟨h1, h2, by rw [h3]⟩

/-- C9 witness: the all-or-nothing behaviour at a concrete environment in
which the module loads but `zig_update` is missing. -/
theorem c9_activation_all_or_nothing_witness :
    ((load_script_system ⟨true, true, true, false⟩).2.scriptFns = false)
    ∧ ((run ⟨true, true, true, false⟩ (fun _ => allOk) (fun _ => dtLiteral)
        5).1.countP Event.isNative = 0)
    ∧ ((run ⟨true, true, true, false⟩ (fun _ => allOk) (fun _ => dtLiteral)
        5).2.exited = false) :=
  ⟨(c9_activation_all_or_nothing ⟨true, true, true, false⟩ (fun _ => allOk)
      (fun _ => dtLiteral) 5).1,
   ((c9_activation_all_or_nothing ⟨true, true, true, false⟩ (fun _ => allOk)
      (fun _ => dtLiteral) 5).2.2 (by decide)).1,
   ((c9_activation_all_or_nothing ⟨true, true, true, false⟩ (fun _ => allOk)
      (fun _ => dtLiteral) 5).2.2 (by decide)).2.2⟩

/-- C10.  On every tick after successful activation, failure of any of the
per-tick fresh-load diagnostic probes is non-fatal: the native calls of the
tick are exactly the always-present stored-pointer `zig_update` call plus
one fresh-load call per fully successful probe (a failed probe contributes
only log lines), the stored update pointer is invoked exactly once on the
tick, and the tick's state transition (counter increment, exit decision) is
unaffected by the probe outcomes. -/
theorem c10_probe_failures_nonfatal (p : ProbeOutcome) (c : Option Nat)
    (ex : Bool) (dt : ℚ) :
    ((script_update_system ⟨true, c, ex⟩ p dt).1.filter Event.isNative
      = (if p.load1Ok && p.sym1Ok then
          [Event.nativeCall Sym.zigUpdateVoid none CallOrigin.fresh true] else [])
        ++ [Event.nativeCall Sym.zigUpdate (some dtLiteral) CallOrigin.stored true]
        ++ (if p.load2Ok && p.sym2Ok then
          [Event.nativeCall Sym.zigUpdate (some dtLiteral) CallOrigin.fresh true]
          else [])
        ++ (if p.load3Ok && p.sym3Ok then
          [Event.nativeCall Sym.zigUpdateVoid none CallOrigin.fresh true] else []))
    ∧ ((script_update_system ⟨true, c, ex⟩ p dt).1.countP
        Event.isStoredUpdate = 1)
    ∧ ((script_update_system ⟨true, c, ex⟩ p dt).2
        = (script_update_system ⟨true, c, ex⟩ allOk dt).2) := by
  refine ⟨?_, ?_, ?_⟩
  · rw [tick_filter Event.isNative rfl rfl]
    simp [scriptCallEvents_filter_native]
  · rw [tick_countP Event.isStoredUpdate rfl rfl]
    simp [scriptCallEvents_count_stored]
  · cases c with
    | none => rfl
    | some c =>
      by_cases h : (c + 1) % 4294967296 > 10 <;>
        simp [script_update_system, h]

end BevyZig
